import Mathlib

/-!
Verification development for the `merlin` messaging client (mental32/nmmq).

The definitions below are a shallow embedding of the Python sources:
  * `src/merlin/core/abc/enums.py`    — `OpCode`, `State`
  * `src/merlin/core/abc/network.py`  — `BaseNetwork` (a `list` subclass)
  * `src/merlin/core/abc/client.py`   — `AbstractClient.on_packet`,
    `AbstractClient._discover_task`
  * `src/merlin/core/backend/discord/client.py` — `Client.send_packet`
  * `src/merlin/core/backend/discord/packet.py` — `Packet.collect`,
    `Packet.ack`, `Packet.__init__`

Python exceptions are made explicit with `Except PyErr`; Python's `None`
becomes `Option`; CPython's evaluation order and truthiness rules are
followed where they matter and are noted in the doc comments.
-/

set_option maxRecDepth 4096

/-- Python exception kinds that the embedded code can raise. -/
inductive PyErr where
  | attributeError
  | nameError
  | valueError
  | indexError
  | typeError
  deriving DecidableEq, Repr

/-- Op codes used for network communication (`enums.py`). -/
inductive OpCode where
  | Heartbeat
  | Alive
  | Dead
  | Data
  | Ack
  | Hello
  | Sync
  deriving DecidableEq, Repr

/-- States of a client (`enums.py`). -/
inductive ClientState where
  | Dead
  | Connected
  | Discovery
  | Alive
  | Dying
  deriving DecidableEq, Repr

/-- Shapes taken by a packet's `data` field (`Any` in Python) at the use
sites the client exercises: absent, a hostname string (Dead packets), or a
raw stack snapshot dict `{'s': members, 'b': backlog}` (Hello / Sync
packets); the `b` entry is kept abstract as a list of raw strings because
`on_packet` raises before ever reading a snapshot (see `on_packet`). -/
inductive PData where
  | pnone
  | pstr (s : String)
  | psnap (s : List String) (b : List String)
  deriving DecidableEq, Repr

/-- The fields of `Packet` that `on_packet` reads. `author` and `recipient`
are `Option String` because both default to Python `None`; `ttl` likewise.
`expires` is `self.ttl is not None` (`packet.py` line 80). -/
structure Packet where
  seq : Nat
  op : OpCode
  author : Option String
  recipient : Option String
  data : PData
  ttl : Option Nat
  deriving DecidableEq, Repr

/-- Field `expires` of `packet.py`: holds iff `ttl` is not `None`. -/
def Packet.expires (p : Packet) : Bool := p.ttl.isSome

/-- Embeds `BaseNetwork(list)` of `network.py`, with `__slots__` making
`backlog` the only attribute.
The list body holds host name strings (the members); `backlog` holds whole
packets appended by `on_packet` during Discovery. -/
structure BaseNetwork where
  members : List String
  backlog : List Packet
  deriving DecidableEq, Repr

/-- CPython `list.remove(x)`: delete the first element equal to `x`;
raise `ValueError` when no element equals `x`. `BaseNetwork` defines no
`remove` of its own, so `network.remove(...)` is exactly this. -/
def pyListRemove {α : Type} [DecidableEq α] : List α → α → Except PyErr (List α)
  | [], _ => .error .valueError
  | y :: ys, x =>
    if y = x then .ok ys
    else (pyListRemove ys x).map (fun l => y :: l)

/-- Method `remove` of `BaseNetwork` as inherited from `list`: acts on the member list,
leaves the backlog alone. -/
def netRemove (s : BaseNetwork) (x : String) : Except PyErr BaseNetwork :=
  (pyListRemove s.members x).map (fun ms => { s with members := ms })

/-- Property `head` (`network.py` line 16): `self[-1]`, the last member; CPython
raises `IndexError` when the list is empty. -/
def netHead (s : BaseNetwork) : Except PyErr String :=
  match s.members.getLast? with
  | some h => .ok h
  | none => .error .indexError

/-- Method `reset(data)` (`network.py` lines 21-24) sets `backlog = []`, clears the
body and extends it with `data`. -/
def netReset (_s : BaseNetwork) (data : List String) : BaseNetwork :=
  { members := data, backlog := [] }

/-- Handlers registered in `_listeners`. `plain` is an ordinary listener
closure. `ackInner seq cb` is the wrapper `inner` that `send_packet` builds
via `_(callback)` and appends under the Ack key; `ackCallback seq cb` is
the underlying `callback` closure itself — `inner` invokes
`callback(callback, recieved)`, so `callback` (not `inner`) is what the
handler later tries to `remove` from the listener list. Distinct
constructors, because the two closures are distinct Python objects. -/
inductive Handler where
  | plain (id : Nat)
  | ackInner (seq : Nat) (cb : Nat)
  | ackCallback (seq : Nat) (cb : Nat)
  deriving DecidableEq, Repr

/-- The client state that `on_packet` reads and writes: hostname, protocol
state, the `_listeners` table (`byOp` is `_listeners[op]` for op-code keys,
`wildcard` is `_listeners[None]`) and the network stack. -/
structure Client where
  hostname : String
  state : ClientState
  byOp : OpCode → List Handler
  wildcard : List Handler
  stack : BaseNetwork

/-- Side effects of one `on_packet` call: the handler tasks created by
`loop.create_task(func(packet))`, in order; whether a
`loop.create_task(packet.collect())` cleanup was scheduled; and whether the
Alive-op branch answered with `packet.respond(op=Hello, ...)`. -/
structure Effects where
  scheduled : List Handler
  collectTask : Bool
  respondedHello : Bool
  deriving Repr

/-- Embeds `AbstractClient.on_packet` (`client.py` lines 103-166), line by line:

1. drop everything unless the state is Alive or Discovery (106-109);
2. while Alive, create a task for every listener under the packet's op
   plus every wildcard listener — this happens BEFORE the author check
   (111-113);
3. compute `authored = author == self.hostname` (115-117);
4. schedule `packet.collect()` for expiring self-authored packets (120-121);
5. return for self-authored packets and packets addressed elsewhere (125-126);
6. in Discovery: non-Hello/Sync packets are appended to the backlog
   (140-141); a Sync packet reaches `NetworkStack(packet.data, [])` — but
   `NetworkStack` is defined nowhere in the repository and is not imported
   by `client.py`, so CPython raises `NameError` (144); a Hello packet
   reaches `self._network_stack.from_data(...)` first — `BaseNetwork`
   defines no `from_data` and `__slots__` precludes instance attributes,
   so CPython raises `AttributeError` (148);
7. while Alive: an Alive op evaluates `network.head` (IndexError on an
   empty stack) and, when we are the head, responds with a Hello (154-156);
   a Dead op runs `network.remove(packet.data)` (158-159); Heartbeat and
   Hello are dropped (161-163); everything else is only logged (165-166). -/
def on_packet (c : Client) (p : Packet) : Except PyErr (Client × Effects) :=
  let op := p.op
  if c.state ≠ ClientState.Alive ∧ c.state ≠ ClientState.Discovery then
    .ok (c, ⟨[], false, false⟩)
  else
    let scheduled :=
      if c.state = ClientState.Alive then c.byOp op ++ c.wildcard else []
    let authored : Bool := p.author = some c.hostname
    let collectTask : Bool := authored && p.expires
    if authored ∨ (p.recipient ≠ some c.hostname ∧ p.recipient ≠ none) then
      .ok (c, ⟨scheduled, collectTask, false⟩)
    else
      let network := c.stack
      if c.state = ClientState.Discovery then
        if op ≠ OpCode.Hello ∧ op ≠ OpCode.Sync then
          .ok ({ c with stack := { network with backlog := network.backlog ++ [p] } },
               ⟨scheduled, collectTask, false⟩)
        else if op = OpCode.Sync then
          .error .nameError
        else
          .error .attributeError
      else if op = OpCode.Alive then
        match netHead network with
        | .error e => .error e
        | .ok h =>
          if h = c.hostname then
            .ok (c, ⟨scheduled, collectTask, true⟩)
          else
            .ok (c, ⟨scheduled, collectTask, false⟩)
      else if op = OpCode.Dead then
        match p.data with
        | PData.pstr s =>
          match netRemove network s with
          | .ok s' => .ok ({ c with stack := s' }, ⟨scheduled, collectTask, false⟩)
          | .error e => .error e
        | _ =>
          -- `list.remove` with a non-string argument finds no equal member.
          .error .valueError
      else
        .ok (c, ⟨scheduled, collectTask, false⟩)

/-- Registration half of `send_packet` (`backend/discord/client.py` lines
130-151) when `ack_cb` is given — continued below: the
`send_packet` when `ack_cb` is given: the decorator `_` wraps `callback`
in `inner` (`inner(*args)` runs `callback(callback, *args)`) and appends
`inner` — not `callback` — to `self._listeners[OpCode.Ack]`. `pseq` is the
sent packet's `seq`; `cb` identifies the user's `ack_cb` closure. -/
def send_packet_register (c : Client) (pseq : Nat) (cb : Nat) : Client :=
  { c with byOp := fun op =>
      if op = OpCode.Ack then c.byOp op ++ [Handler.ackInner pseq cb]
      else c.byOp op }

/-- Running one scheduled handler task with the inbound packet `p`.
`plain` listeners touch no client state. `ackInner s cb` runs `inner(p)`
= `callback(callback, p)` (`client.py` lines 134-147): when `p.seq`
matches the sent seq it executes
`with suppress(ValueError): self._listeners[OpCode.Ack].remove(_self)` —
`_self` is the `callback` closure, while the registered entry is the
`inner` wrapper, so the removal raises `ValueError`, which `suppress`
swallows leaving the list unchanged — and then awaits `ack_cb(recieved)`.
Returns the updated client and the ids of `ack_cb` closures invoked. -/
def runHandler (c : Client) (h : Handler) (p : Packet) : Client × List Nat :=
  match h with
  | Handler.ackInner s cb =>
    if p.seq = s then
      let ackList := c.byOp OpCode.Ack
      let removed :=
        match pyListRemove ackList (Handler.ackCallback s cb) with
        | .ok l => l
        | .error _ => ackList
      ({ c with byOp := fun op =>
           if op = OpCode.Ack then removed else c.byOp op }, [cb])
    else (c, [])
  | _ => (c, [])

/-- Run the scheduled handler tasks in creation order (the event loop is
single-threaded), threading the client and collecting `ack_cb`
invocations. -/
def runScheduled (c : Client) (hs : List Handler) (p : Packet) : Client × List Nat :=
  match hs with
  | [] => (c, [])
  | h :: rest =>
    let r := runHandler c h p
    let r' := runScheduled r.1 rest p
    (r'.1, r.2 ++ r'.2)

/-- One full inbound round: `on_packet` classifies the packet, then the
tasks it created run to completion. -/
def processAndRun (c : Client) (p : Packet) : Except PyErr (Client × List Nat) :=
  match on_packet c p with
  | .error e => .error e
  | .ok (c', eff) => .ok (runScheduled c' eff.scheduled p)

/-- Line 77 of `client.py`: `step = (1 for _ in range(15))` — the generator
driving the discovery wait yields the constant 1 fifteen times. -/
def stepGen : List Nat := List.map (fun _ => 1) (List.range 15)

/-- Embeds the discovery wait loop (`client.py` lines 79-83). `alive k` is whether
`self._state is State.Alive` at the k-th evaluation of the loop condition
(after k sleeps; an inbound Hello or Sync sets it concurrently). Returns
the list of sleep durations performed and whether the loop ended by
exhausting the generator (`StopIteration` → `break`) with the state still
not Alive — i.e. whether the timeout fallback (lines 85-99) runs. -/
def waitGo (alive : Nat → Bool) : List Nat → Nat → List Nat × Bool
  | steps, k =>
    if alive k then ([], false)
    else
      match steps with
      | [] => ([], true)
      | d :: rest =>
        let r := waitGo alive rest (k + 1)
        (d :: r.1, r.2)

/-- The wait loop as `_discover_task` runs it: the generator holds fifteen
1-second steps and the first condition check happens before any sleep. -/
def discoverRun (alive : Nat → Bool) : List Nat × Bool := waitGo alive stepGen 0

/-- Embeds `_discover_task` (`client.py` lines 68-99) after the initial Alive
broadcast put the client into Discovery. Returns `(stack', state', sleeps,
syncSent)`. When the wait loop observes Alive the task returns at line 86
with the stack untouched. Otherwise the fallback runs: an empty backlog is
replaced by `reset([self.hostname])`; a backlog of exactly one packet makes
`functools.reduce(stack.step, backlog)` return that packet without calling
`step`, after which the sync packet is sent; with two or more backlog
entries `reduce` calls the bound method `stack.step` with two positional
arguments while it accepts only one (`network.py` line 26), so CPython
raises `TypeError` and the task dies before line 99. -/
def discoverTask (alive : Nat → Bool) (stack : BaseNetwork) (hostname : String) :
    Except PyErr (BaseNetwork × ClientState × List Nat × Bool) :=
  let r := discoverRun alive
  if r.2 then
    if stack.backlog.isEmpty then
      .ok (netReset stack [hostname], ClientState.Alive, r.1, false)
    else if stack.backlog.length = 1 then
      .ok (stack, ClientState.Alive, r.1, true)
    else
      .error .typeError
  else
    .ok (stack, ClientState.Alive, r.1, false)

/-- The per-packet state that `Packet.collect` touches: the `__collected`
guard flag and the number of `self._message.delete()` attempts made. -/
structure CollectSt where
  collected : Bool
  attempts : Nat
  deriving DecidableEq, Repr

/-- One `collect()` invocation (`backend/discord/packet.py` lines 131-145).
The guard (`if self.__collected: return` / `self.__collected = True`) runs
synchronously before the first `await`, so under the single-threaded event
loop it is atomic: concurrent invocations serialize at the guard, and only
the one that flipped the flag goes on to sleep out the ttl and attempt the
relay-side `delete()` (counted here; a failed delete is only logged). -/
def collectOnce (s : CollectSt) : CollectSt :=
  if s.collected then s
  else { collected := true, attempts := s.attempts + 1 }

/-- Runs `n` invocations of `collect()` on the same packet, in the order their
guards execute. -/
def collectRun (s : CollectSt) : Nat → CollectSt
  | 0 => s
  | n + 1 => collectRun (collectOnce s) n

/-- Seq selection of `Packet.__init__` (`packet.py` line 18, likewise
`abc/packet.py` line 41):
`self.seq = kwargs.get('seq') or next(AbstractPacket.sequence_number)`.
Python truthiness: both `None` and `0` are falsy, so a passed-in seq of 0
is discarded and a fresh number is drawn from the itertools-style counter
state. Returns the chosen seq and the counter afterwards. -/
def pyOrSeq (seqArg : Option Nat) (counter : Nat) : Nat × Nat :=
  match seqArg with
  | some s => if s = 0 then (counter, counter + 1) else (s, counter)
  | none => (counter, counter + 1)

/-- The fields of the packet that `Packet.ack` constructs. -/
structure BuiltAck where
  seq : Nat
  op : OpCode
  author : Option String
  recipient : Option String
  data : PData
  deriving DecidableEq, Repr

/-- Embeds `Packet.ack` (`backend/discord/packet.py` lines 147-148): `ack(data)` constructs
`Packet(client, channel, op=Ack, seq=self.seq, author=client.hostname,
recipient=self.author, data=data)` and sends it. The constructor runs
`pyOrSeq` on the passed seq. -/
def ackBuild (clientHost : String) (p : Packet) (d : PData) (counter : Nat) :
    BuiltAck × Nat :=
  let r := pyOrSeq (some p.seq) counter
  ({ seq := r.1, op := OpCode.Ack, author := some clientHost,
     recipient := p.author, data := d }, r.2)

/-- A heap of Python list objects holding packet ids, for the semantics of
the mutable default argument in `BaseNetwork.__init__` (`network.py` line
7): `def __init__(self, *args, backlog=[], **kwargs)` evaluates `[]` once,
when the `def` statement executes, producing a single list object that
every call omitting `backlog` binds. Cell 0 is that default object. -/
structure Heap where
  cells : List (List Nat)
  deriving DecidableEq, Repr

/-- The module as imported: the default-argument list exists and is empty. -/
def initHeap : Heap := ⟨[[]]⟩

/-- A `BaseNetwork` as a reference holder: its `backlog` attribute is a
reference to a heap cell. -/
structure NetRef where
  members : List String
  backlogRef : Nat
  deriving DecidableEq, Repr

/-- Constructor call `BaseNetwork(...)`: with an explicit `backlog=` argument the attribute
binds that object; without one it binds the shared default object, cell 0. -/
def mkBaseNetwork (h : Heap) (members : List String) (backlogArg : Option Nat) :
    NetRef × Heap :=
  match backlogArg with
  | some r => (⟨members, r⟩, h)
  | none => (⟨members, 0⟩, h)

/-- Dereference a backlog cell. -/
def heapGet (h : Heap) (r : Nat) : List Nat := h.cells.getD r []

/-- Call `stack.backlog.append(p)`: mutate the referenced list object in place. -/
def backlogAppend (h : Heap) (r : Nat) (p : Nat) : Heap :=
  ⟨h.cells.set r (heapGet h r ++ [p])⟩

/-! Concrete scenarios used by the claims below. -/

/-- An Alive client on host B with one ordinary listener under the Data op. -/
def cAliveData : Client :=
  ⟨"B", ClientState.Alive,
   fun op => if op = OpCode.Data then [Handler.plain 1] else [], [], ⟨["B"], []⟩⟩

/-- A Data packet authored by the client's own host B. -/
def selfDataPkt : Packet := ⟨3, OpCode.Data, some "B", none, PData.pnone, none⟩

/-- An Alive client on host B with no listeners registered. -/
def cAliveBare : Client := ⟨"B", ClientState.Alive, fun _ => [], [], ⟨["B"], []⟩⟩

/-- The client after `send_packet(..., ack_cb=...)` sent a packet with seq 5
whose ack callback closure is id 0. -/
def cAckRegistered : Client := send_packet_register cAliveBare 5 0

/-- An Ack from host A answering seq 5, addressed to B. -/
def ackPkt : Packet := ⟨5, OpCode.Ack, some "A", some "B", PData.pnone, none⟩

/-- A freshly constructed client on host B during discovery. -/
def cDiscovering : Client := ⟨"B", ClientState.Discovery, fun _ => [], [], ⟨[], []⟩⟩

/-- A Hello from host A broadcasting the snapshot `{'s': ['A'], 'b': []}`. -/
def helloPkt : Packet := ⟨7, OpCode.Hello, some "A", none, PData.psnap ["A"] [], some 15⟩

/-- A network stack whose members are A and B with an empty backlog. -/
def stackAB : BaseNetwork := ⟨["A", "B"], []⟩

/-- A packet whose seq is 0 — the very first seq that
`itertools.count()` hands out — authored by A and addressed to B. -/
def seqZeroPkt : Packet := ⟨0, OpCode.Data, some "A", some "B", PData.pnone, some 5⟩

/-- First default-constructed stack of the C9 run, over the freshly
imported module heap. -/
def c9Stack1 : NetRef × Heap := mkBaseNetwork initHeap [] none

/-- The heap after appending packet `pid` to the first stack's backlog. -/
def c9Heap2 (pid : Nat) : Heap := backlogAppend c9Stack1.2 c9Stack1.1.backlogRef pid

/-- Second default-constructed stack, built after the append. -/
def c9Stack2 (pid : Nat) : NetRef × Heap := mkBaseNetwork (c9Heap2 pid) [] none

/-- Maps an embedded Python result to the exception it raised, if any. -/
def errOf {α : Type} : Except PyErr α → Option PyErr
  | .error e => some e
  | .ok _ => none

/-- A Dead packet from host A naming the local host B itself. -/
def deadBPkt : Packet := ⟨1, OpCode.Dead, some "A", none, PData.pstr "B", none⟩

/-- An Alive packet broadcast by host A. -/
def aliveBroadcastPkt : Packet := ⟨2, OpCode.Alive, some "A", none, PData.pnone, none⟩

/-- C1.
The claim states that `on_packet` schedules no handler invocation for a
self-authored packet in every state including Alive. It is false: while
Alive, the dispatch loop (`client.py` lines 111-113) runs before the
author check (line 125), so a Data packet authored by the client's own
host B is dispatched to the Data listener. -/
theorem c1_self_authored_dispatched_while_alive :
    (on_packet cAliveData selfDataPkt).toOption.map (fun x => x.2.scheduled)
      = some [Handler.plain 1] := by
  rfl

/-- C1, amended.
For a self-authored packet `on_packet` returns normally, leaves the client
unchanged (no state-machine processing, no Hello response), and schedules
no handler in any state other than Alive — but while Alive it schedules
every listener under the packet's op plus every wildcard listener, because
dispatch precedes the author check. -/
theorem c1_amended_self_authored (c : Client) (p : Packet)
    (h : p.author = some c.hostname) :
    ∃ eff : Effects, on_packet c p = .ok (c, eff) ∧
      eff.scheduled
        = (if c.state = ClientState.Alive then c.byOp p.op ++ c.wildcard else []) ∧
      eff.respondedHello = false := by
  by_cases h1 : c.state ≠ ClientState.Alive ∧ c.state ≠ ClientState.Discovery
  · refine ⟨⟨[], false, false⟩, ?_, ?_, rfl⟩
    · unfold on_packet
      rw [if_pos h1]
    · rw [if_neg h1.1]
  · refine ⟨⟨(if c.state = ClientState.Alive then c.byOp p.op ++ c.wildcard else []),
      (decide (p.author = some c.hostname) && p.expires), false⟩, ?_, rfl, rfl⟩
    unfold on_packet
    rw [if_neg h1, if_pos (Or.inl (decide_eq_true h))]

/-- Witness for the amended C1 at a concrete Alive client and packet. -/
theorem c1_amended_self_authored_witness :
    ∃ eff : Effects, on_packet cAliveData selfDataPkt = .ok (cAliveData, eff) ∧
      eff.scheduled
        = (if cAliveData.state = ClientState.Alive
           then cAliveData.byOp selfDataPkt.op ++ cAliveData.wildcard else []) ∧
      eff.respondedHello = false :=
  c1_amended_self_authored cAliveData selfDataPkt rfl

/-- C2.
The claim states the transient Ack handler unregisters itself on the first
matching Ack, so a duplicate Ack never retriggers `ack_cb`. It is false on
the code: `send_packet` registers the wrapper `inner` but the handler body
removes `_self`, which is the wrapped `callback` closure — the `remove`
raises `ValueError`, `suppress` swallows it, and the handler stays
registered, so a second Ack with the same seq invokes `ack_cb` again.
After the first round the Ack listener list still holds the wrapper and
`ack_cb` 0 ran once; feeding the identical Ack again runs it a second
time. -/
theorem c2_duplicate_ack_retriggers :
    (processAndRun cAckRegistered ackPkt).toOption.map
        (fun x => (x.1.byOp OpCode.Ack, x.2)) = some ([Handler.ackInner 5 0], [0]) ∧
    ((processAndRun cAckRegistered ackPkt).toOption.bind
        (fun x => (processAndRun x.1 ackPkt).toOption.map (fun y => y.2)))
      = some [0] := by
  exact ⟨rfl, rfl⟩

/-- C3.
The claim states that a Hello received during Discovery folds the received
members plus the local host into the stack and transitions to Alive
without error. On the code the Hello branch first runs
`self._network_stack.from_data(packet.data, self.hostname)` — `BaseNetwork`
defines no `from_data` (and its `__slots__` admit no instance attribute of
that name), so CPython raises `AttributeError`; the following line's
`NetworkStack` is moreover an unresolved name. The client neither folds
the snapshot nor reaches Alive. -/
theorem c3_hello_in_discovery_raises :
    on_packet cDiscovering helloPkt = .error PyErr.attributeError := by
  rfl

/-- When the state is never observed Alive through the last check, the wait
loop sleeps out every remaining step and reports a timeout. -/
theorem waitGo_all_false (alive : Nat → Bool) :
    ∀ (steps : List Nat) (k : Nat),
      (∀ j, j ≤ k + steps.length → alive j = false) →
      waitGo alive steps k = (steps, true) := by
  intro steps
  induction steps with
  | nil =>
    intro k h
    unfold waitGo
    rw [h k (by simp)]
    simp
  | cons d rest ih =>
    intro k h
    unfold waitGo
    rw [h k (by simp)]
    simp only
    rw [ih (k + 1) (fun j hj => h j (by simpa [Nat.add_comm, Nat.add_left_comm] using hj))]
    simp

/-- When the state is first observed Alive at the m-th check, the wait loop
sleeps exactly the first m steps (or all of them, if fewer remain) and a
timeout is reported only when the steps ran out strictly before the m-th
check. -/
theorem waitGo_first_alive (alive : Nat → Bool) :
    ∀ (steps : List Nat) (k m : Nat),
      alive (k + m) = true →
      (∀ j, j < m → alive (k + j) = false) →
      waitGo alive steps k = (steps.take m, decide (steps.length < m)) := by
  intro steps
  induction steps with
  | nil =>
    intro k m hm hlt
    unfold waitGo
    match m with
    | 0 => rw [show alive k = true by simpa using hm]; simp
    | m' + 1 =>
      rw [show alive k = false by simpa using hlt 0 (Nat.succ_pos m')]
      simp
  | cons d rest ih =>
    intro k m hm hlt
    unfold waitGo
    match m with
    | 0 => rw [show alive k = true by simpa using hm]; simp
    | m' + 1 =>
      rw [show alive k = false by simpa using hlt 0 (Nat.succ_pos m')]
      simp only
      rw [ih (k + 1) m' (by simpa [Nat.add_comm, Nat.add_left_comm, Nat.add_assoc] using hm)
        (fun j hj => by
          simpa [Nat.add_comm, Nat.add_left_comm, Nat.add_assoc] using
            hlt (j + 1) (Nat.succ_lt_succ hj))]
      simp [List.take, Nat.succ_lt_succ_iff]

/-- The step generator of `_discover_task` is fifteen constant 1-second
steps. -/
theorem stepGen_eq : stepGen = List.replicate 15 1 := by decide

/-- C4.
The claim states the discovery wait sleeps strictly increasing steps
1, 2, ..., 15 (cumulative 120 seconds). It is false: the generator is
`(1 for _ in range(15))`, so a client that never turns Alive sleeps
fifteen 1-second steps — a list that is neither `[1, 2, ..., 15]` nor
strictly increasing, with a cumulative wait of 15 seconds. -/
theorem c4_wait_steps_constant_one :
    discoverRun (fun _ => false) = (List.replicate 15 1, true) ∧
    List.replicate 15 1 ≠ [1, 2, 3, 4, 5, 6, 7, 8, 9, 10, 11, 12, 13, 14, 15] ∧
    (List.replicate 15 1).sum = 15 := by
  refine ⟨?_, by decide, by decide⟩
  rw [discoverRun, waitGo_all_false (fun _ => false) stepGen 0 (fun _ _ => rfl), stepGen_eq]

/-- C4, amended.
The discovery wait polls in fifteen constant 1-second steps (cumulative 15
seconds), re-checking before each step whether the state has become Alive:
if no check through the 15th observes Alive, all fifteen steps are slept
and the timeout fallback runs; if the k-th check is the first to observe
Alive, exactly `min k 15` steps were slept and the fallback runs only when
the steps ran out first (k > 15). -/
theorem c4_amended_wait_policy (alive : Nat → Bool) :
    ((∀ k, k ≤ 15 → alive k = false) →
       discoverRun alive = (List.replicate 15 1, true)) ∧
    (∀ k, alive k = true → (∀ j, j < k → alive j = false) →
       discoverRun alive = (List.replicate (min k 15) 1, decide (15 < k))) := by
  constructor
  · intro h
    rw [discoverRun, waitGo_all_false alive stepGen 0
      (fun j hj => h j (by simpa [stepGen_eq] using hj)), stepGen_eq]
  · intro k hk hlt
    rw [discoverRun, waitGo_first_alive alive stepGen 0 k (by simpa using hk)
      (fun j hj => by simpa using hlt j hj), stepGen_eq, List.take_replicate]
    simp

/-- Witness for the amended C4: the state turns Alive at the third check,
so three 1-second steps are slept and no fallback runs. -/
theorem c4_amended_wait_policy_witness :
    discoverRun (fun k => decide (k = 3))
      = (List.replicate (min 3 15) 1, decide (15 < 3)) :=
  (c4_amended_wait_policy (fun k => decide (k = 3))).2 3 (by decide) (by decide)

/-- C5.
The claim states `remove(h)` is a no-op returning normally when `h` is not
a member. It is false: `BaseNetwork` inherits `list.remove`, which raises
`ValueError` when no element matches, so removing C from the stack
[A, B] raises instead of returning the stack unchanged. -/
theorem c5_remove_absent_raises :
    netRemove stackAB "C" = .error PyErr.valueError ∧
    netRemove stackAB "C" ≠ .ok stackAB := by
  refine ⟨rfl, ?_⟩
  intro h
  rw [show netRemove stackAB "C" = .error PyErr.valueError from rfl] at h
  exact Except.noConfusion h

/-- CPython `list.remove` deletes the first matching element when one
exists and raises `ValueError` otherwise. -/
theorem pyListRemove_spec (xs : List String) (x : String) :
    (x ∈ xs → pyListRemove xs x = .ok (xs.erase x)) ∧
    (x ∉ xs → pyListRemove xs x = .error PyErr.valueError) := by
  induction xs with
  | nil => exact ⟨fun h => absurd h (List.not_mem_nil x), fun _ => rfl⟩
  | cons y ys ih =>
    constructor
    · intro hmem
      by_cases hyx : y = x
      · subst hyx
        unfold pyListRemove
        rw [if_pos rfl, List.erase_cons_head]
      · have hx : x ∈ ys := by
          rcases List.mem_cons.mp hmem with h | h
          · exact absurd h.symm hyx
          · exact h
        unfold pyListRemove
        rw [if_neg hyx, ih.1 hx, List.erase_cons_tail (by simpa using hyx)]
        rfl
    · intro hmem
      have hyx : ¬ y = x := fun h => hmem (h ▸ List.mem_cons_self y ys)
      have hx : x ∉ ys := fun h => hmem (List.mem_cons_of_mem y h)
      unfold pyListRemove
      rw [if_neg hyx, ih.2 hx]
      rfl

/-- C5, amended.
Processing a Dead packet naming host `h` calls `remove(h)`, which deletes
the first occurrence of `h` from the members when `h` is present and
raises `ValueError` — propagating out of `on_packet` — when `h` is not
present; the backlog is untouched either way. -/
theorem c5_amended_remove (s : BaseNetwork) (x : String) :
    (x ∈ s.members → netRemove s x = .ok ⟨s.members.erase x, s.backlog⟩) ∧
    (x ∉ s.members → netRemove s x = .error PyErr.valueError) := by
  constructor
  · intro h
    rw [netRemove, (pyListRemove_spec s.members x).1 h]
    rfl
  · intro h
    rw [netRemove, (pyListRemove_spec s.members x).2 h]
    rfl

/-- Witness for the amended C5: removing the present member A from [A, B]
deletes it and keeps the backlog. -/
theorem c5_amended_remove_witness :
    netRemove stackAB "A" = .ok ⟨stackAB.members.erase "A", stackAB.backlog⟩ :=
  (c5_amended_remove stackAB "A").1 (by decide)

/-- C6.
If no check of the discovery wait ever observes Alive (no Hello or Sync
was processed) and the backlog is empty, the fallback resets the stack to
`{members: [localHost], backlog: []}` and the client ends Alive, after the
fifteen 1-second sleeps and without sending a sync packet. -/
theorem c6_timeout_fallback_empty_backlog (alive : Nat → Bool)
    (stack : BaseNetwork) (hostname : String)
    (hA : ∀ k, k ≤ 15 → alive k = false) (hB : stack.backlog = []) :
    discoverTask alive stack hostname
      = .ok (⟨[hostname], []⟩, ClientState.Alive, List.replicate 15 1, false) := by
  have hrun : discoverRun alive = (List.replicate 15 1, true) := by
    rw [discoverRun, waitGo_all_false alive stepGen 0
      (fun j hj => hA j (by simpa [stepGen_eq] using hj)), stepGen_eq]
  rw [discoverTask, hrun]
  simp [hB, netReset]

/-- Witness for C6: a client on host B that hears nothing and has nothing
backlogged ends with itself as sole member. -/
theorem c6_timeout_fallback_empty_backlog_witness :
    discoverTask (fun _ => false) ⟨[], []⟩ "B"
      = .ok (⟨["B"], []⟩, ClientState.Alive, List.replicate 15 1, false) :=
  c6_timeout_fallback_empty_backlog (fun _ => false) ⟨[], []⟩ "B"
    (fun _ _ => rfl) rfl

/-- Repeated collection of an already-collected packet changes nothing. -/
theorem collectRun_collected (a : Nat) :
    ∀ n : Nat, collectRun ⟨true, a⟩ n = ⟨true, a⟩ := by
  intro n
  induction n with
  | zero => rfl
  | succ m ih =>
    show collectRun (collectOnce ⟨true, a⟩) m = _
    rw [show collectOnce ⟨true, a⟩ = ⟨true, a⟩ from rfl, ih]

/-- C7.
Collection is idempotent: the `__collected` guard flips synchronously
before the first await point, so the guard of any later (or concurrently
started) invocation observes it and returns immediately. Running `collect`
any number of times on a fresh packet attempts the relay-side message
deletion exactly `min n 1` times — once when invoked at all, never twice. -/
theorem c7_collect_idempotent :
    (∀ s : CollectSt, collectOnce (collectOnce s) = collectOnce s) ∧
    (∀ n : Nat, (collectRun ⟨false, 0⟩ n).attempts = min n 1) := by
  constructor
  · intro s
    by_cases h : s.collected
    · rw [show collectOnce s = s from by rw [collectOnce, if_pos h],
          show collectOnce s = s from by rw [collectOnce, if_pos h]]
    · rw [show collectOnce s = ⟨true, s.attempts + 1⟩ from by rw [collectOnce, if_neg h]]
      rfl
  · intro n
    match n with
    | 0 => rfl
    | m + 1 =>
      show (collectRun (collectOnce ⟨false, 0⟩) m).attempts = _
      rw [show collectOnce ⟨false, 0⟩ = ⟨true, 1⟩ from rfl, collectRun_collected 1 m]
      simp

/-- C8.
The claim states `ack(data)` echoes the original seq for every packet,
including one whose seq is 0. It is false: the constructor runs
`kwargs.get('seq') or next(AbstractPacket.sequence_number)` and 0 is falsy
in Python, so acknowledging a seq-0 packet allocates a fresh sequence
number (here 7, the counter's next value) instead of echoing 0. -/
theorem c8_zero_seq_not_echoed :
    (ackBuild "B" seqZeroPkt PData.pnone 7).1.seq = 7 ∧
    (ackBuild "B" seqZeroPkt PData.pnone 7).1.seq ≠ seqZeroPkt.seq := by
  exact ⟨rfl, by decide⟩

/-- C8, amended.
For every packet whose seq is nonzero, `ack(data)` builds an Ack packet
echoing the original seq, addressed back to the original author, without
drawing from the sequence counter; a seq of 0 is falsy and is replaced by
a freshly allocated number. -/
theorem c8_amended_ack_echoes_nonzero_seq (clientHost : String) (p : Packet)
    (d : PData) (counter : Nat) (h : p.seq ≠ 0) :
    (ackBuild clientHost p d counter).1.seq = p.seq ∧
    (ackBuild clientHost p d counter).1.recipient = p.author ∧
    (ackBuild clientHost p d counter).1.op = OpCode.Ack ∧
    (ackBuild clientHost p d counter).2 = counter := by
  rw [ackBuild, pyOrSeq]
  simp [h]

/-- Witness for the amended C8 at a concrete seq-5 packet. -/
theorem c8_amended_ack_echoes_nonzero_seq_witness :
    (ackBuild "B" ackPkt PData.pnone 7).1.seq = ackPkt.seq ∧
    (ackBuild "B" ackPkt PData.pnone 7).1.recipient = ackPkt.author ∧
    (ackBuild "B" ackPkt PData.pnone 7).1.op = OpCode.Ack ∧
    (ackBuild "B" ackPkt PData.pnone 7).2 = 7 :=
  c8_amended_ack_echoes_nonzero_seq "B" ackPkt PData.pnone 7 (by decide)

/-- C9.
The default `backlog=[]` of `BaseNetwork.__init__` is evaluated once, at
class-body definition time, so every stack constructed without an explicit
backlog shares that single list object: append a packet through the first
stack's backlog and a subsequently default-constructed stack's backlog
already contains it — a fresh default-constructed stack is not empty. -/
theorem c9_shared_default_backlog (pid : Nat) :
    heapGet (c9Stack2 pid).2 (c9Stack2 pid).1.backlogRef = [pid] ∧
    (c9Stack2 pid).1.backlogRef = c9Stack1.1.backlogRef := by
  exact ⟨rfl, rfl⟩

/-- C10.
`head` is defined only on a non-empty member list: on an empty stack it
raises `IndexError` whatever the backlog holds. Nothing stops the members
from emptying out — a Dead packet naming the sole member B removes it —
after which the next Alive-op packet makes `on_packet` evaluate
`network.head == self.hostname` and raise `IndexError`. -/
theorem c10_empty_head_errors :
    (∀ backlog : List Packet, netHead ⟨[], backlog⟩ = .error PyErr.indexError) ∧
    ((on_packet cAliveBare deadBPkt).toOption.map
        (fun x => (x.1.stack.members, errOf (on_packet x.1 aliveBroadcastPkt))))
      = some ([], some PyErr.indexError) := by
  exact ⟨fun _ => rfl, rfl⟩
